import Mathlib

/-!
Shallow embedding of the gemini-business repository
(src/core/register_service.py, src/util/gemini_auth_utils.py)
together with theorems checking the specification claims.

Browser, network and clock interactions are modelled by explicit
environment records (oracles indexed by poll/attempt number); loops that
are bounded in the source by a wall-clock deadline are modelled by a fuel
argument counting iterations, exactly as the source counts sleeps.
-/

namespace GB

/-- Harvested session credentials, the record built by
GeminiAuthHelper.extract_config_from_driver and saved by
RegisterService._save_config. -/
structure ConfigData where
  id : String
  csesidx : String
  config_id : String
  secure_c_ses : String
  host_c_oses : String
  expires_at : Option String
deriving DecidableEq, Repr

/-- The per-attempt result dict produced by RegisterService._register_one_sync:
keys email, success, config, error. -/
structure AttemptResult where
  email : Option String
  success : Bool
  config : Option ConfigData
  error : Option String
deriving DecidableEq, Repr

/-- The RegisterStatus enum of register_service.py. -/
inductive RegisterStatus where
  | pending
  | running
  | success
  | failed
deriving DecidableEq, Repr

/-- The RegisterTask dataclass. The field the spec calls completed_count is
the dataclass field progress. Timestamps are abstract Nat instants. -/
structure RegisterTask where
  id : String
  count : Nat
  status : RegisterStatus
  progress : Nat
  success_count : Nat
  fail_count : Nat
  created_at : Nat
  finished_at : Option Nat
  results : List AttemptResult
  error : Option String
deriving DecidableEq, Repr

/-- RegisterTask(id=..., count=...) with the dataclass defaults. -/
def mkRegisterTask (id : String) (count : Nat) (created : Nat) : RegisterTask :=
  { id := id, count := count, status := RegisterStatus.pending, progress := 0,
    success_count := 0, fail_count := 0, created_at := created, finished_at := none,
    results := [], error := none }

/-- Outcome of the worker thread spawned by run_with_timeout: it finishes
with a value, raises, or is still alive when thread.join(timeout) returns. -/
inductive WorkerOutcome (α : Type) where
  | finished (v : α)
  | raised (msg : String)
  | hung
deriving DecidableEq, Repr

/-- Failures surfaced by run_with_timeout: the TimeoutException it raises
itself when the worker is still alive, or the re-raised worker exception. -/
inductive RunFailure where
  | timedOut (seconds : Nat)
  | exn (msg : String)
deriving DecidableEq, Repr

/-- run_with_timeout (register_service.py lines 75-100): join the worker with
a deadline; a still-alive worker becomes TimeoutException, a stored worker
exception is re-raised, otherwise the stored result is returned. -/
def run_with_timeout {α : Type} (timeout_seconds : Nat) :
    WorkerOutcome α → Except RunFailure α
  | WorkerOutcome.finished v => Except.ok v
  | WorkerOutcome.raised m => Except.error (RunFailure.exn m)
  | WorkerOutcome.hung => Except.error (RunFailure.timedOut timeout_seconds)

/-- RegisterService.ACCOUNT_TIMEOUT. -/
def ACCOUNT_TIMEOUT : Nat := 90

/-- The f-string error text of the timeout branch of _register_one_sync. -/
def accountTimeoutError (n : Nat) : String := "超时(>" ++ Nat.repr n ++ "s)"

/-- _register_one_sync: wrap the inner attempt in run_with_timeout and turn
TimeoutException, or any other exception, into a normal failed attempt
record; this function never raises. -/
def register_one_sync (w : WorkerOutcome AttemptResult) : AttemptResult :=
  match run_with_timeout ACCOUNT_TIMEOUT w with
  | Except.ok r => r
  | Except.error (RunFailure.timedOut s) =>
      { email := none, success := false, config := none,
        error := some (accountTimeoutError s) }
  | Except.error (RunFailure.exn m) =>
      { email := none, success := false, config := none, error := some m }

/-- One iteration of the _run_register_async attempt loop, for attempt index
i: set progress to i+1, append the result, bump the matching counter. -/
def stepAttempt (t : RegisterTask) (i : Nat) (r : AttemptResult) : RegisterTask :=
  { t with progress := i + 1,
           results := t.results ++ [r],
           success_count := if r.success then t.success_count + 1 else t.success_count,
           fail_count := if r.success then t.fail_count else t.fail_count + 1 }

/-- Task state after the first k iterations of the attempt loop, where
oracle i is the i-th result returned by _register_one_sync. -/
def runIter (oracle : Nat → AttemptResult) (t0 : RegisterTask) : Nat → RegisterTask
  | 0 => t0
  | k + 1 => stepAttempt (runIter oracle t0 k) k (oracle k)

/-- First statement of _run_register_async: the task enters RUNNING. -/
def runBeginTask (t : RegisterTask) : RegisterTask :=
  { t with status := RegisterStatus.running }

/-- Normal completion of _run_register_async: all t.count attempts ran,
status becomes success iff success_count > 0, and the finally block stamps
finished_at. -/
def finishTaskOk (t : RegisterTask) (oracle : Nat → AttemptResult) (now : Nat) :
    RegisterTask :=
  let t1 := runIter oracle t t.count
  { t1 with
      status := if 0 < t1.success_count then RegisterStatus.success else RegisterStatus.failed,
      finished_at := some now }

/-- Exceptional completion of _run_register_async: an orchestration-level
exception after k completed attempts marks the task failed and records the
message; the finally block still stamps finished_at. -/
def finishTaskErr (t : RegisterTask) (oracle : Nat → AttemptResult) (k : Nat)
    (msg : String) (now : Nat) : RegisterTask :=
  let t1 := runIter oracle t k
  { t1 with status := RegisterStatus.failed, error := some msg,
            finished_at := some now }

/-- Mutable state of the RegisterService instance: the task registry dict,
the current-task pointer and the specified domain. -/
structure ServiceState where
  tasks : List (String × RegisterTask)
  currentTaskId : Option String
  specifiedDomain : Option String

/-- Freshly constructed RegisterService. -/
def emptyService : ServiceState :=
  { tasks := [], currentTaskId := none, specifiedDomain := none }

/-- self._tasks.get(tid). -/
def lookupTask (s : ServiceState) (tid : String) : Option RegisterTask :=
  (s.tasks.find? (fun p => p.1 == tid)).map (fun p => p.2)

/-- Dict assignment self._tasks[tid] = t. -/
def updateTask : List (String × RegisterTask) → String → RegisterTask →
    List (String × RegisterTask)
  | [], tid, t => [(tid, t)]
  | p :: rest, tid, t =>
      if p.1 == tid then (tid, t) :: rest else p :: updateTask rest tid t

/-- start_register (lines 308-327): raise ValueError only when the current
task exists and its status is RUNNING; otherwise store the domain, create a
fresh pending task, register it and make it current. The ValueError is
raised before any mutation, so the rejected call returns the state
unchanged. Task ids are uuid4 strings, hence never empty, so the Python
truthiness test on self._current_task_id is the Option test. -/
def start_register (s : ServiceState) (count : Nat) (domain : Option String)
    (newId : String) (now : Nat) : Except String RegisterTask × ServiceState :=
  let rejected :=
    match s.currentTaskId with
    | some tid =>
      match lookupTask s tid with
      | some t => t.status == RegisterStatus.running
      | none => false
    | none => false
  if rejected then
    (Except.error "已有注册任务在运行中", s)
  else
    let task := mkRegisterTask newId count now
    (Except.ok task,
      { tasks := updateTask s.tasks newId task,
        currentTaskId := some newId,
        specifiedDomain := domain })

/-- The service-level effect of the finally block of _run_register_async:
store the finished task (the registry entry is the same mutated object) and
clear the current-task pointer. -/
def serviceFinish (s : ServiceState) (tid : String) (t : RegisterTask) :
    ServiceState :=
  { s with tasks := updateTask s.tasks tid t, currentTaskId := none }

/-- get_current_task (lines 365-369). -/
def get_current_task (s : ServiceState) : Option RegisterTask :=
  match s.currentTaskId with
  | some tid => lookupTask s tid
  | none => none

/-- Boolean success test on the start_register outcome. -/
def isOkE : Except String RegisterTask → Bool
  | Except.ok _ => true
  | Except.error _ => false

/-- Number of successful attempts among the first k oracle results. -/
def countSucc (oracle : Nat → AttemptResult) (k : Nat) : Nat :=
  ((List.range k).filter (fun i => (oracle i).success)).length

/-- Number of failed attempts among the first k oracle results. -/
def countFail (oracle : Nat → AttemptResult) (k : Nat) : Nat :=
  ((List.range k).filter (fun i => !(oracle i).success)).length

theorem countSucc_succ (o : Nat → AttemptResult) (k : Nat) :
    countSucc o (k + 1) = countSucc o k + (if (o k).success then 1 else 0) := by
  simp only [countSucc, List.range_succ, List.filter_append, List.length_append]
  cases h : (o k).success <;> simp [h]

theorem countFail_succ (o : Nat → AttemptResult) (k : Nat) :
    countFail o (k + 1) = countFail o k + (if (o k).success then 0 else 1) := by
  simp only [countFail, List.range_succ, List.filter_append, List.length_append]
  cases h : (o k).success <;> simp [h]

theorem runIter_success_count (o : Nat → AttemptResult) (t0 : RegisterTask) :
    ∀ k, (runIter o t0 k).success_count = t0.success_count + countSucc o k := by
  intro k
  induction k with
  | zero => simp [runIter, countSucc]
  | succ k ih =>
      simp only [runIter, stepAttempt, countSucc_succ]
      cases h : (o k).success <;> simp [h, ih, Nat.add_assoc]

theorem runIter_fail_count (o : Nat → AttemptResult) (t0 : RegisterTask) :
    ∀ k, (runIter o t0 k).fail_count = t0.fail_count + countFail o k := by
  intro k
  induction k with
  | zero => simp [runIter, countFail]
  | succ k ih =>
      simp only [runIter, stepAttempt, countFail_succ]
      cases h : (o k).success <;> simp [h, ih, Nat.add_assoc]

theorem countSucc_add_countFail (o : Nat → AttemptResult) :
    ∀ k, countSucc o k + countFail o k = k := by
  intro k
  induction k with
  | zero => simp [countSucc, countFail]
  | succ k ih =>
      rw [countSucc_succ, countFail_succ]
      cases h : (o k).success <;> simp [h] <;> omega

theorem runIter_progress (o : Nat → AttemptResult) (t0 : RegisterTask) :
    ∀ k, (runIter o t0 k).progress = if k = 0 then t0.progress else k := by
  intro k
  induction k with
  | zero => simp [runIter]
  | succ k _ => simp [runIter, stepAttempt]

theorem runIter_results_length (o : Nat → AttemptResult) (t0 : RegisterTask) :
    ∀ k, (runIter o t0 k).results.length = t0.results.length + k := by
  intro k
  induction k with
  | zero => simp [runIter]
  | succ k ih => simp [runIter, stepAttempt, ih]; omega

theorem runIter_error (o : Nat → AttemptResult) (t0 : RegisterTask) :
    ∀ k, (runIter o t0 k).error = t0.error := by
  intro k
  induction k with
  | zero => simp [runIter]
  | succ k ih => simp [runIter, stepAttempt, ih]

theorem runIter_count (o : Nat → AttemptResult) (t0 : RegisterTask) :
    ∀ k, (runIter o t0 k).count = t0.count := by
  intro k
  induction k with
  | zero => simp [runIter]
  | succ k ih => simp [runIter, stepAttempt, ih]

/-- C1: for every requested count, when the batch run completes without an
orchestration-level error the finished task satisfies
progress (= completed_count) = count, success_count + fail_count = count,
results has one entry per attempt, and the final status is success exactly
when success_count > 0; in particular count = 0 or an all-failed batch
yields status failed, since then countSucc = 0. -/
theorem batch_task_final_counts (id : String) (count created now : Nat)
    (oracle : Nat → AttemptResult) :
    (finishTaskOk (runBeginTask (mkRegisterTask id count created)) oracle now).progress = count
    ∧ (finishTaskOk (runBeginTask (mkRegisterTask id count created)) oracle now).success_count
        = countSucc oracle count
    ∧ (finishTaskOk (runBeginTask (mkRegisterTask id count created)) oracle now).fail_count
        = countFail oracle count
    ∧ (finishTaskOk (runBeginTask (mkRegisterTask id count created)) oracle now).success_count
        + (finishTaskOk (runBeginTask (mkRegisterTask id count created)) oracle now).fail_count
        = count
    ∧ (finishTaskOk (runBeginTask (mkRegisterTask id count created)) oracle now).results.length
        = count
    ∧ (finishTaskOk (runBeginTask (mkRegisterTask id count created)) oracle now).status
        = (if 0 < countSucc oracle count then RegisterStatus.success else RegisterStatus.failed)
    ∧ (finishTaskOk (runBeginTask (mkRegisterTask id count created)) oracle now).error = none := by
  have hc : (runBeginTask (mkRegisterTask id count created)).count = count := rfl
  refine ⟨?_, ?_, ?_, ?_, ?_, ?_, ?_⟩
  · simp only [finishTaskOk, hc, runIter_progress]
    rcases Nat.eq_zero_or_pos count with h | h
    · simp [h, runBeginTask, mkRegisterTask]
    · simp [Nat.pos_iff_ne_zero.mp h]
  · simp [finishTaskOk, hc, runIter_success_count, runBeginTask, mkRegisterTask]
  · simp [finishTaskOk, hc, runIter_fail_count, runBeginTask, mkRegisterTask]
  · simp [finishTaskOk, hc, runIter_success_count, runIter_fail_count,
      runBeginTask, mkRegisterTask, countSucc_add_countFail]
  · simp [finishTaskOk, hc, runIter_results_length, runBeginTask, mkRegisterTask]
  · simp [finishTaskOk, hc, runIter_success_count, runBeginTask, mkRegisterTask]
  · simp [finishTaskOk, hc, runIter_error, runBeginTask, mkRegisterTask]

/-- C2: the Timed Execution Guard forwards a finished worker result,
re-raises a worker exception and yields TimedOut for a hung worker; in
_register_one_sync a guard timeout becomes a normal failed attempt record
with the timeout reason, and a batch whose attempts come from such records
completes all attempts with no task-level error, the status determined
solely by whether some attempt succeeded. -/
theorem timeout_guard_attempt_failure (v : AttemptResult) (msg : String)
    (ws : Nat → WorkerOutcome AttemptResult) (id : String)
    (count created now : Nat) :
    run_with_timeout ACCOUNT_TIMEOUT (WorkerOutcome.finished v) = Except.ok v
    ∧ run_with_timeout (α := AttemptResult) ACCOUNT_TIMEOUT (WorkerOutcome.raised msg)
        = Except.error (RunFailure.exn msg)
    ∧ run_with_timeout (α := AttemptResult) ACCOUNT_TIMEOUT WorkerOutcome.hung
        = Except.error (RunFailure.timedOut 90)
    ∧ (register_one_sync WorkerOutcome.hung).success = false
    ∧ (register_one_sync WorkerOutcome.hung).error = some (accountTimeoutError 90)
    ∧ (finishTaskOk (runBeginTask (mkRegisterTask id count created))
        (fun i => register_one_sync (ws i)) now).error = none
    ∧ (finishTaskOk (runBeginTask (mkRegisterTask id count created))
        (fun i => register_one_sync (ws i)) now).results.length = count
    ∧ (finishTaskOk (runBeginTask (mkRegisterTask id count created))
        (fun i => register_one_sync (ws i)) now).status
        = (if 0 < countSucc (fun i => register_one_sync (ws i)) count
           then RegisterStatus.success else RegisterStatus.failed) := by
  obtain ⟨_, _, _, _, h5, h6, _⟩ :=
    batch_task_final_counts id count created now (fun i => register_one_sync (ws i))
  have hc : (runBeginTask (mkRegisterTask id count created)).count = count := rfl
  refine ⟨rfl, rfl, rfl, rfl, rfl, ?_, h5, h6⟩
  simp [finishTaskOk, hc, runIter_error, runBeginTask, mkRegisterTask]

/-- Service state obtained from a single start call on a fresh service:
the created task is still pending because the scheduled _run_register_async
coroutine has not yet executed its first statement. -/
def c3state1 : ServiceState := (start_register emptyService 1 none "t1" 0).2

/-- C3 counterexample: immediately after a first start the active task
exists and is not finished (status pending, finished_at unset), yet a
second start call is accepted, creates a new task and repoints the
active-task pointer, instead of failing with the precondition error. -/
theorem start_accepted_while_unfinished_cex :
    (get_current_task c3state1).map RegisterTask.finished_at = some none
    ∧ (get_current_task c3state1).map RegisterTask.status = some RegisterStatus.pending
    ∧ isOkE (start_register c3state1 1 none "t2" 1).1 = true
    ∧ (start_register c3state1 1 none "t2" 1).2.currentTaskId = some "t2" := by
  refine ⟨rfl, rfl, rfl, rfl⟩

/-- C3 amended: whenever the active task's status is RUNNING, start_register
fails with the precondition error and returns the service state unchanged,
creating and queueing nothing. -/
theorem start_rejected_while_running (s : ServiceState) (tid : String)
    (t : RegisterTask) (count : Nat) (domain : Option String) (newId : String)
    (now : Nat) (h1 : s.currentTaskId = some tid)
    (h2 : lookupTask s tid = some t) (h3 : t.status = RegisterStatus.running) :
    start_register s count domain newId now
      = (Except.error "已有注册任务在运行中", s) := by
  simp [start_register, h1, h2, h3]

/-- A service whose registered task t1 is running and active. -/
def runningService : ServiceState :=
  { tasks := [("t1", { mkRegisterTask "t1" 1 0 with status := RegisterStatus.running })],
    currentTaskId := some "t1", specifiedDomain := none }

/-- C3 witness: the rejection theorem applied to a concrete running service. -/
theorem start_rejected_while_running_witness :
    runningService.currentTaskId = some "t1"
    ∧ lookupTask runningService "t1"
        = some { mkRegisterTask "t1" 1 0 with status := RegisterStatus.running }
    ∧ start_register runningService 3 none "t9" 5
        = (Except.error "已有注册任务在运行中", runningService) :=
  ⟨rfl, rfl, start_rejected_while_running runningService "t1"
      { mkRegisterTask "t1" 1 0 with status := RegisterStatus.running }
      3 none "t9" 5 rfl rfl rfl⟩

/-- C10: whether _run_register_async ends normally or by an
orchestration-level exception, the finally block stamps finished_at and
clears the active-task pointer, so get_current_task returns None and a
subsequent start call is accepted. -/
theorem finish_clears_active_task (s : ServiceState) (tid : String)
    (t : RegisterTask) (oracle : Nat → AttemptResult) (now k : Nat)
    (msg : String) (count2 now2 : Nat) (dom2 : Option String) (nid2 : String) :
    (finishTaskOk (runBeginTask t) oracle now).finished_at = some now
    ∧ (finishTaskErr (runBeginTask t) oracle k msg now).finished_at = some now
    ∧ get_current_task (serviceFinish s tid (finishTaskOk (runBeginTask t) oracle now)) = none
    ∧ get_current_task (serviceFinish s tid (finishTaskErr (runBeginTask t) oracle k msg now)) = none
    ∧ isOkE (start_register (serviceFinish s tid (finishTaskOk (runBeginTask t) oracle now))
        count2 dom2 nid2 now2).1 = true
    ∧ isOkE (start_register (serviceFinish s tid (finishTaskErr (runBeginTask t) oracle k msg now))
        count2 dom2 nid2 now2).1 = true := by
  refine ⟨rfl, rfl, rfl, rfl, rfl, rfl⟩

/-! Character-list string helpers, used instead of the corresponding Python
string operations so that everything reduces structurally. -/

/-- Whether pat occurs as a contiguous substring of hay (the Python in test). -/
def containsSub (hay pat : List Char) : Bool :=
  match hay with
  | [] => pat.isEmpty
  | _ :: rest => pat.isPrefixOf hay || containsSub rest pat

/-! Crash-Aware Navigator: GeminiAuthHelper.wait_for_workspace
(gemini_auth_utils.py lines 816-856) with _recover_from_crash abstracted to
its success bit. The driver is modelled by per-poll observations; the
exception branch of the source (which applies the same crash policy to
driver exceptions) is not exercised by these environments. -/

/-- Environment of wait_for_workspace: what the t-th poll of page_source /
current_url observes, and whether the k-th _recover_from_crash call
succeeds. -/
structure NavEnv where
  crashedAt : Nat → Bool
  urlAt : Nat → String
  recoverOk : Nat → Bool

/-- The target-reached test: 'business.gemini.google' in url and '/cid/' in url. -/
def isWorkspaceUrl (url : String) : Bool :=
  containsSub url.data "business.gemini.google".data
    && containsSub url.data "/cid/".data

/-- The polling loop of wait_for_workspace, returning the result together
with the number of successful recoveries performed and the number of
crashes detected. Arguments: remaining loop iterations (the source loops
for _ in range(timeout), one second each), poll index, crash counter,
recovery counter. -/
def waitForWorkspaceAux (env : NavEnv) (maxCrash : Nat) :
    Nat → Nat → Nat → Nat → Bool × Nat × Nat
  | 0, _, cc, rec => (false, rec, cc)
  | n + 1, t, cc, rec =>
    if env.crashedAt t then
      if maxCrash ≤ cc + 1 then (false, rec, cc + 1)
      else if env.recoverOk rec then
        waitForWorkspaceAux env maxCrash n (t + 1) (cc + 1) (rec + 1)
      else (false, rec, cc + 1)
    else if isWorkspaceUrl (env.urlAt t) then (true, rec, cc)
    else waitForWorkspaceAux env maxCrash n (t + 1) cc rec

/-- Deadline exhaustion reports the crash count seen so far. -/
def waitForWorkspaceFull (env : NavEnv) (timeout maxCrash : Nat) : Bool × Nat × Nat :=
  waitForWorkspaceAux env maxCrash timeout 0 0 0

/-- wait_for_workspace, source defaults timeout=30 and max_crash_retries=3. -/
def wait_for_workspace (env : NavEnv) (timeout maxCrash : Nat) : Bool :=
  (waitForWorkspaceFull env timeout maxCrash).1

/-- Page that signals a crash on every poll, with recovery always working. -/
def allCrashEnv : NavEnv :=
  { crashedAt := fun _ => true, urlAt := fun _ => "", recoverOk := fun _ => true }

/-- Stubbed page of the spec scenario: crashed on the first two polls, at the
target URL from the third poll on, recovery always working. -/
def stubCrashEnv : NavEnv :=
  { crashedAt := fun t => decide (t < 2),
    urlAt := fun _ => "https://business.gemini.google/u/0/cid/abc123",
    recoverOk := fun _ => true }

/-- Page crashed on the first three polls and at the target afterwards. -/
def threeCrashEnv : NavEnv :=
  { crashedAt := fun t => decide (t < 3),
    urlAt := fun _ => "https://business.gemini.google/u/0/cid/abc123",
    recoverOk := fun _ => true }

theorem waitForWorkspaceAux_allcrash (env : NavEnv)
    (hcr : ∀ t, env.crashedAt t = true) (hre : ∀ k, env.recoverOk k = true)
    (maxCrash : Nat) :
    ∀ n cc rec t, cc < maxCrash → maxCrash ≤ cc + n →
      waitForWorkspaceAux env maxCrash n t cc rec
        = (false, rec + (maxCrash - cc - 1), maxCrash) := by
  intro n
  induction n with
  | zero => intro cc rec t h1 h2; omega
  | succ n ih =>
      intro cc rec t h1 h2
      rw [waitForWorkspaceAux, hcr t]
      simp only [if_true]
      by_cases hm : maxCrash ≤ cc + 1
      · have hmc : maxCrash = cc + 1 := by omega
        simp [hm, hmc]
      · rw [if_neg hm, hre rec, if_pos rfl,
          ih (cc + 1) (rec + 1) (t + 1) (by omega) (by omega)]
        have : rec + 1 + (maxCrash - (cc + 1) - 1) = rec + (maxCrash - cc - 1) := by omega
        rw [this]

/-- C5 amended: the navigator gives up when the number of detected crashes
reaches max_crash_retries (so it performs at most max_crash_retries - 1
recoveries), not only when it exceeds it; and on the stubbed page that
crashes on its first two polls and shows the target URL on the third it
returns success after exactly 2 recovery cycles. -/
theorem navigator_crash_budget (maxCrash fuel : Nat) (h1 : 1 ≤ maxCrash)
    (h2 : maxCrash ≤ fuel) :
    waitForWorkspaceFull allCrashEnv fuel maxCrash
      = (false, maxCrash - 1, maxCrash)
    ∧ waitForWorkspaceFull stubCrashEnv 30 3 = (true, 2, 2) := by
  constructor
  · rw [waitForWorkspaceFull,
      waitForWorkspaceAux_allcrash allCrashEnv (fun _ => rfl) (fun _ => rfl)
        maxCrash fuel 0 0 0 (by omega) (by omega)]
    have : 0 + (maxCrash - 0 - 1) = maxCrash - 1 := by omega
    rw [this]
  · rfl

/-- C5 witness: the amended theorem at the default budget 3 and timeout 30. -/
theorem navigator_crash_budget_witness :
    waitForWorkspaceFull allCrashEnv 30 3 = (false, 2, 3)
    ∧ waitForWorkspaceFull stubCrashEnv 30 3 = (true, 2, 2) :=
  navigator_crash_budget 3 30 (by decide) (by decide)

/-- C5 counterexample: with max_crash_retries = 3, a page that crashes on
exactly its first three polls makes wait_for_workspace give up (after 2
recoveries, having detected 3 crashes), although 3 does not exceed 3 and
the target URL would have been visible from the fourth poll on, as the run
with budget 4 shows. -/
theorem navigator_gives_up_at_budget_cex :
    waitForWorkspaceFull threeCrashEnv 30 3 = (false, 2, 3)
    ∧ ¬ (3 > 3)
    ∧ waitForWorkspaceFull threeCrashEnv 30 4 = (true, 3, 3) := by
  refine ⟨rfl, by omega, rfl⟩

/-! Email code extraction: GeminiAuthHelper._extract_code_from_html
(gemini_auth_utils.py lines 141-176). The BeautifulSoup parse of the raw
body is modelled by a node tree; an element carries its tag and its class
attribute rendered as one string (what str(x) of the attribute yields). An
empty body parses to the empty node list. -/

/-- Parsed HTML node. -/
inductive Html where
  | elem (tag : String) (classAttr : Option String) (children : List Html)
  | tx (s : String)

mutual
/-- el.get_text of one node: concatenation of all descendant text. -/
def getText : Html → String
  | Html.tx s => s
  | Html.elem _ _ cs => getTextList cs
/-- soup.get_text over a node list. -/
def getTextList : List Html → String
  | [] => ""
  | h :: t => getText h ++ getTextList t
end

mutual
/-- soup.find_all(tag): elements with the given tag, in document order. -/
def findAllTag (tag : String) : Html → List Html
  | Html.tx _ => []
  | Html.elem t c cs =>
      (if t = tag then [Html.elem t c cs] else []) ++ findAllTagList tag cs
/-- find_all(tag) over a node list. -/
def findAllTagList (tag : String) : List Html → List Html
  | [] => []
  | h :: rest => findAllTag tag h ++ findAllTagList tag rest
end

/-- Python ch.lower() for the ASCII range. -/
def lowerChar (c : Char) : Char :=
  if 'A' ≤ c && c ≤ 'Z' then Char.ofNat (c.toNat + 32) else c

/-- The class_ predicate of method 1: the attribute exists and its string
form, lowercased, contains the pattern. -/
def classMatches (pat : String) : Option String → Bool
  | some c => containsSub (c.data.map lowerChar) pat.data
  | none => false

mutual
/-- find_all(class_=lambda ...): elements whose class attribute matches. -/
def findAllClass (pat : String) : Html → List Html
  | Html.tx _ => []
  | Html.elem t c cs =>
      (if classMatches pat c then [Html.elem t c cs] else []) ++ findAllClassList pat cs
/-- find_all(class_=...) over a node list. -/
def findAllClassList (pat : String) : List Html → List Html
  | [] => []
  | h :: rest => findAllClass pat h ++ findAllClassList pat rest
end

/-- Python str.strip(): drop ASCII whitespace from both ends. -/
def stripChars (l : List Char) : List Char :=
  ((l.dropWhile Char.isWhitespace).reverse.dropWhile Char.isWhitespace).reverse

/-- Python str.strip() on a String. -/
def pyStrip (s : String) : String := String.mk (stripChars s.data)

/-- One character of the class [A-Za-z0-9]. -/
def isAsciiAlnum (c : Char) : Bool :=
  ('A' ≤ c && c ≤ 'Z') || ('a' ≤ c && c ≤ 'z') || ('0' ≤ c && c ≤ '9')

/-- One character of the class [0-9]. -/
def isAsciiDigit (c : Char) : Bool := '0' ≤ c && c ≤ '9'

/-- One character of the class [A-Z0-9]. -/
def isUpperAlnum (c : Char) : Bool := ('A' ≤ c && c ≤ 'Z') || isAsciiDigit c

/-- A regex word character over ASCII input: [A-Za-z0-9_]. -/
def isWordChar (c : Char) : Bool := isAsciiAlnum c || c = '_'

/-- re.match(r'^[A-Za-z0-9]{6}$', s) for an already stripped s (stripping
removes any trailing newline, so $ is plain end of string). -/
def exact6 (s : String) : Bool :=
  (s.data.length == 6) && s.data.all isAsciiAlnum

/-- Methods 1 and 2 share this scan: first element whose stripped text is
exactly 6 alphanumerics. -/
def scanElems (els : List Html) : Option String :=
  els.findSome? fun el =>
    let t := pyStrip (getText el)
    if exact6 t then some t else none

/-- The class keywords of method 1, in source order. -/
def classPatterns : List String :=
  ["verification-code", "verification_code", "code", "otp", "pin"]

/-- The tag list of method 2, in source order. -/
def emphasisTags : List String :=
  ["strong", "b", "h1", "h2", "h3", "span", "div", "p", "td"]

/-- Method 1: for each class keyword in turn, first matching element whose
stripped text is a 6-character alphanumeric code. -/
def method1 (doc : List Html) : Option String :=
  classPatterns.findSome? fun pat => scanElems (findAllClassList pat doc)

/-- Method 2: same scan over the emphasis tags in turn. -/
def method2 (doc : List Html) : Option String :=
  emphasisTags.findSome? fun tag => scanElems (findAllTagList tag doc)

/-- Python \s over ASCII input. -/
def pySpace (c : Char) : Bool :=
  c = ' ' || c = '\t' || c = '\n' || c = '\x0d' || c = '\x0b' || c = '\x0c'

/-- The separator class [:\s] of the keyword pattern. -/
def sepChar (c : Char) : Bool := c = ':' || pySpace c

/-- Try to read exactly six characters of the class at the head; returns the
six characters and the remainder. -/
def grab6 (cls : Char → Bool) (l : List Char) : Option (List Char × List Char) :=
  let six := l.take 6
  if six.length == 6 && six.all cls then some (six, l.drop 6) else none

/-- The word boundary after a word character: next char absent or non-word. -/
def tailBoundary : List Char → Bool
  | [] => true
  | c :: _ => !isWordChar c

/-- The word boundary before a word character: previous char absent or
non-word. -/
def boundaryBefore : Option Char → Bool
  | none => true
  | some c => !isWordChar c

/-- Attempt of one bare pattern \b([cls]{6})\b at the current position,
prev being the character just before it. -/
def tryBare6 (cls : Char → Bool) (prev : Option Char) (l : List Char) :
    Option String :=
  if boundaryBefore prev then
    match grab6 cls l with
    | some (six, rest) => if tailBoundary rest then some (String.mk six) else none
    | none => none
  else none

/-- re.search of \b([cls]{6})\b: leftmost match position wins. -/
def searchBare6Aux (cls : Char → Bool) : Option Char → List Char → Option String
  | _, [] => none
  | prev, c :: cs =>
    match tryBare6 cls prev (c :: cs) with
    | some r => some r
    | none => searchBare6Aux cls (some c) cs

/-- re.search of a bare six-character pattern over the whole text. -/
def searchBare6 (cls : Char → Bool) (l : List Char) : Option String :=
  searchBare6Aux cls none l

/-- The alternation (?:code|Code|CODE|verification), in source order. -/
def p1Keywords : List (List Char) :=
  ["code".data, "Code".data, "CODE".data, "verification".data]

/-- After [:\s]+ has consumed at least one separator: keep consuming
separators greedily, then require exactly six alphanumerics followed by a
word boundary. Shorter separator runs cannot match since the next character
would be a separator, not an alphanumeric, so greedy consumption is exact. -/
def afterSeps : List Char → Option String
  | [] => none
  | c :: cs =>
    if sepChar c then afterSeps cs
    else match grab6 isAsciiAlnum (c :: cs) with
      | some (six, rest) =>
          if tailBoundary rest then some (String.mk six) else none
      | none => none

/-- The keyword pattern tail after the matched keyword: [:\s]+ then the
code group with its trailing boundary. -/
def afterKeyword (l : List Char) : Option String :=
  match l with
  | c :: cs => if sepChar c then afterSeps cs else none
  | [] => none

/-- Attempt of the keyword pattern at the current position. -/
def tryP1At (l : List Char) : Option String :=
  p1Keywords.findSome? fun kw =>
    if kw.isPrefixOf l then afterKeyword (l.drop kw.length) else none

/-- re.search of the keyword pattern: scan positions left to right. -/
def p1Search : List Char → Option String
  | [] => none
  | c :: cs =>
    match tryP1At (c :: cs) with
    | some r => some r
    | none => p1Search cs

/-- Method 3: the four regexes over the rendered plain text, in priority
order: keyword pattern, bare 6 digits, bare 6 uppercase alphanumerics,
bare 6 mixed-case alphanumerics. -/
def method3 (plain : List Char) : Option String :=
  match p1Search plain with
  | some c => some c
  | none =>
    match searchBare6 isAsciiDigit plain with
    | some c => some c
    | none =>
      match searchBare6 isUpperAlnum plain with
      | some c => some c
      | none => searchBare6 isAsciiAlnum plain

/-- _extract_code_from_html on the parsed body: empty body gives None, then
methods 1, 2, 3 in order. -/
def extract_code_from_html (doc : List Html) : Option String :=
  if doc.isEmpty then none
  else
    match method1 doc with
    | some c => some c
    | none =>
      match method2 doc with
      | some c => some c
      | none => method3 (getTextList doc).data

end GB
namespace GB

/-- C7: code extraction is deterministic with the fixed pattern priority:
an HTML body whose strong element holds AB12C9, surrounded by arbitrary
noise text, extracts exactly AB12C9 (noise text carries no class attribute
and strong is the first emphasis tag tried, so no earlier-priority match
exists); and the plaintext body about 482913 extracts 482913 through the
bare-6-digit pattern, the keyword pattern not matching it. -/
theorem extract_code_priority (n1 n2 : String) :
    extract_code_from_html
      [Html.elem "div" none
        [Html.tx n1, Html.elem "strong" none [Html.tx "AB12C9"], Html.tx n2]]
      = some "AB12C9"
    ∧ extract_code_from_html [Html.tx "your code is 482913 valid 10 min"]
      = some "482913"
    ∧ p1Search ("your code is 482913 valid 10 min").data = none
    ∧ searchBare6 isAsciiDigit ("your code is 482913 valid 10 min").data
      = some "482913" :=
  ⟨rfl, by decide, by decide, by decide⟩

theorem findSome_exists {α β : Type} {f : α → Option β} {b : β} :
    ∀ {l : List α}, l.findSome? f = some b → ∃ a, f a = some b := by
  intro l
  induction l with
  | nil => intro h; simp [List.findSome?] at h
  | cons a as ih =>
      intro h
      rw [List.findSome?_cons] at h
      cases hfa : f a with
      | some c => rw [hfa] at h; exact ⟨a, hfa.trans h⟩
      | none => rw [hfa] at h; exact ih h

theorem scanElems_exact6 {els : List Html} {s : String}
    (h : scanElems els = some s) : exact6 s = true := by
  obtain ⟨el, hel⟩ := findSome_exists h
  dsimp only at hel
  split at hel
  · rename_i h6
    cases hel
    exact h6
  · cases hel

theorem grab6_spec {cls : Char → Bool} {l six rest : List Char}
    (h : grab6 cls l = some (six, rest)) :
    six.length = 6 ∧ six.all cls = true := by
  unfold grab6 at h
  dsimp only at h
  split at h
  · rename_i hc
    cases h
    simp only [Bool.and_eq_true, beq_iff_eq] at hc
    exact hc
  · cases h

theorem tryBare6_spec {cls : Char → Bool} {prev : Option Char}
    {l : List Char} {s : String} (h : tryBare6 cls prev l = some s) :
    ∃ six : List Char, s = String.mk six ∧ six.length = 6 ∧ six.all cls = true := by
  unfold tryBare6 at h
  split at h
  · cases hg : grab6 cls l with
    | some p =>
        rw [hg] at h
        obtain ⟨six, rest⟩ := p
        dsimp only at h
        split at h
        · cases h
          exact ⟨six, rfl, grab6_spec hg⟩
        · cases h
    | none => rw [hg] at h; cases h
  · cases h

theorem searchBare6Aux_spec {cls : Char → Bool} :
    ∀ {l : List Char} {prev : Option Char} {s : String},
      searchBare6Aux cls prev l = some s →
      ∃ six : List Char, s = String.mk six ∧ six.length = 6 ∧ six.all cls = true := by
  intro l
  induction l with
  | nil => intro prev s h; simp [searchBare6Aux] at h
  | cons c cs ih =>
      intro prev s h
      rw [searchBare6Aux] at h
      cases ht : tryBare6 cls prev (c :: cs) with
      | some r => rw [ht] at h; cases h; exact tryBare6_spec ht
      | none => rw [ht] at h; exact ih h

theorem afterSeps_spec :
    ∀ {l : List Char} {s : String}, afterSeps l = some s →
      ∃ six : List Char, s = String.mk six ∧ six.length = 6
        ∧ six.all isAsciiAlnum = true := by
  intro l
  induction l with
  | nil => intro s h; simp [afterSeps] at h
  | cons c cs ih =>
      intro s h
      rw [afterSeps] at h
      split at h
      · exact ih h
      · cases hg : grab6 isAsciiAlnum (c :: cs) with
        | some p =>
            rw [hg] at h
            obtain ⟨six, rest⟩ := p
            dsimp only at h
            split at h
            · cases h
              exact ⟨six, rfl, grab6_spec hg⟩
            · cases h
        | none => rw [hg] at h; cases h

theorem afterKeyword_spec {l : List Char} {s : String}
    (h : afterKeyword l = some s) :
    ∃ six : List Char, s = String.mk six ∧ six.length = 6
      ∧ six.all isAsciiAlnum = true := by
  unfold afterKeyword at h
  cases l with
  | nil => cases h
  | cons c cs =>
      dsimp only at h
      split at h
      · exact afterSeps_spec h
      · cases h

theorem tryP1At_spec {l : List Char} {s : String} (h : tryP1At l = some s) :
    ∃ six : List Char, s = String.mk six ∧ six.length = 6
      ∧ six.all isAsciiAlnum = true := by
  obtain ⟨kw, hkw⟩ := findSome_exists h
  split at hkw
  · exact afterKeyword_spec hkw
  · cases hkw

theorem p1Search_spec :
    ∀ {l : List Char} {s : String}, p1Search l = some s →
      ∃ six : List Char, s = String.mk six ∧ six.length = 6
        ∧ six.all isAsciiAlnum = true := by
  intro l
  induction l with
  | nil => intro s h; simp [p1Search] at h
  | cons c cs ih =>
      intro s h
      rw [p1Search] at h
      cases ht : tryP1At (c :: cs) with
      | some r => rw [ht] at h; cases h; exact tryP1At_spec ht
      | none => rw [ht] at h; exact ih h

theorem alnum_of_digit {c : Char} (h : isAsciiDigit c = true) :
    isAsciiAlnum c = true := by
  simp only [isAsciiDigit, Bool.and_eq_true, decide_eq_true_eq] at h
  simp only [isAsciiAlnum, Bool.or_eq_true, Bool.and_eq_true, decide_eq_true_eq]
  exact Or.inr h

theorem alnum_of_upper {c : Char} (h : isUpperAlnum c = true) :
    isAsciiAlnum c = true := by
  simp only [isUpperAlnum, isAsciiDigit, Bool.or_eq_true, Bool.and_eq_true,
    decide_eq_true_eq] at h
  simp only [isAsciiAlnum, Bool.or_eq_true, Bool.and_eq_true, decide_eq_true_eq]
  rcases h with h | h
  · exact Or.inl (Or.inl h)
  · exact Or.inr h

theorem all_mono {p q : Char → Bool} (hpq : ∀ c, p c = true → q c = true) :
    ∀ {l : List Char}, l.all p = true → l.all q = true := by
  intro l hl
  simp only [List.all_eq_true] at hl ⊢
  intro c hc
  exact hpq c (hl c hc)

theorem method3_spec {plain : List Char} {s : String}
    (h : method3 plain = some s) :
    s.length = 6 ∧ s.data.all isAsciiAlnum = true := by
  unfold method3 at h
  cases h1 : p1Search plain with
  | some c =>
      rw [h1] at h; cases h
      obtain ⟨six, rfl, h6, ha⟩ := p1Search_spec h1
      exact ⟨h6, ha⟩
  | none =>
      rw [h1] at h
      cases h2 : searchBare6 isAsciiDigit plain with
      | some c =>
          rw [h2] at h; cases h
          obtain ⟨six, rfl, h6, ha⟩ := searchBare6Aux_spec h2
          exact ⟨h6, all_mono (fun c => alnum_of_digit) ha⟩
      | none =>
          rw [h2] at h
          cases h3 : searchBare6 isUpperAlnum plain with
          | some c =>
              rw [h3] at h; cases h
              obtain ⟨six, rfl, h6, ha⟩ := searchBare6Aux_spec h3
              exact ⟨h6, all_mono (fun c => alnum_of_upper) ha⟩
          | none =>
              rw [h3] at h
              obtain ⟨six, rfl, h6, ha⟩ := searchBare6Aux_spec h
              exact ⟨h6, ha⟩

theorem exact6_shape {s : String} (h : exact6 s = true) :
    s.length = 6 ∧ s.data.all isAsciiAlnum = true := by
  simp only [exact6, Bool.and_eq_true, beq_iff_eq] at h
  exact h

/-- C9: every code returned by _extract_code_from_html, through any of its
three search stages, is a string of exactly 6 ASCII alphanumeric
characters. -/
theorem extract_code_shape (doc : List Html) (s : String)
    (h : extract_code_from_html doc = some s) :
    s.length = 6 ∧ s.data.all isAsciiAlnum = true := by
  unfold extract_code_from_html at h
  split at h
  · cases h
  · cases h1 : method1 doc with
    | some c =>
        rw [h1] at h; cases h
        obtain ⟨pat, hpat⟩ := findSome_exists h1
        exact exact6_shape (scanElems_exact6 hpat)
    | none =>
        rw [h1] at h
        cases h2 : method2 doc with
        | some c =>
            rw [h2] at h; cases h
            obtain ⟨tag, htag⟩ := findSome_exists h2
            exact exact6_shape (scanElems_exact6 htag)
        | none =>
            rw [h2] at h
            exact method3_spec h

/-- Concrete document for the C9 witness: an element whose class contains
the keyword code and whose padded text strips to a 6-character code. -/
def classCodeDoc : List Html :=
  [Html.elem "p" (some "otp-code") [Html.tx " K7M2Q9 "]]

/-- C9 witness: the shape theorem applied at a concrete extraction. -/
theorem extract_code_shape_witness :
    extract_code_from_html classCodeDoc = some "K7M2Q9"
    ∧ ("K7M2Q9".length = 6 ∧ "K7M2Q9".data.all isAsciiAlnum = true) :=
  ⟨by decide, extract_code_shape classCodeDoc "K7M2Q9" (by decide)⟩

/-! Inbox polling: GeminiAuthHelper.get_verification_code
(gemini_auth_utils.py lines 178-280). Message bodies are carried already
parsed (the several possible body fields of a feed message); Python string
truthiness of a body is emptiness of its node list. A feed or admin request
that raises or returns a non-200 status is a fail response. -/

/-- One message of the structured per-mailbox feed, with the possible body
field names tried by the source in order. -/
structure EmailMsg where
  id : Option String
  html_content : Option (List Html)
  html : Option (List Html)
  body : Option (List Html)
  content : Option (List Html)
  text : Option (List Html)

/-- Response of one GET /api/emails request. -/
inductive FeedResp where
  | fail
  | ok (es : List EmailMsg)

/-- One entry of the administrative all-mail feed, with the pre-extracted
metadata ai_extract result (none when the metadata JSON does not parse or
lacks the field). -/
structure AdminMail where
  address : String
  source : String
  aiResult : Option String

/-- Response of one GET /admin/mails request. -/
inductive AdminResp where
  | fail
  | ok (ms : List AdminMail)

/-- Environment of get_verification_code: the configured google_mail
sentinel, the response of the baseline fetch, and the responses of the
t-th polling iteration on each path. -/
structure MailEnv where
  google_mail : String
  baseline : FeedResp
  feed : Nat → FeedResp
  admin : Nat → AdminResp

/-- Python truthiness of an optional string. -/
def pyTruthyStr : Option String → Bool
  | some s => !s.isEmpty
  | none => false

/-- The or-chain over the possible body
fields: first present, non-empty body; otherwise the empty body. -/
def firstTruthyDoc : List (Option (List Html)) → List Html
  | [] => []
  | some d :: rest => if d.isEmpty then firstTruthyDoc rest else d
  | none :: rest => firstTruthyDoc rest

/-- The body chosen for the newest feed message. -/
def msgContent (m : EmailMsg) : List Html :=
  firstTruthyDoc [m.html_content, m.html, m.body, m.content, m.text]

/-- Path 2 of one iteration: scan the admin feed for the first mail with the
exact recipient address and the google_mail source whose metadata carries a
truthy pre-extracted code. -/
def adminPoll (env : MailEnv) (email : String) (t : Nat) : Option String :=
  match env.admin t with
  | AdminResp.fail => none
  | AdminResp.ok ms =>
      ms.findSome? fun m =>
        if m.address == email && m.source == env.google_mail then
          match m.aiResult with
          | some c => if c.isEmpty then none else some c
          | none => none
        else none

/-- One iteration of the polling loop. On path 1, a failed request or an
empty list falls through to path 2; a newest message whose id equals the
truthy baseline id hits the continue statement, which skips path 2 for
this iteration; otherwise its body is passed to code extraction and only
an unextractable body falls through to path 2. -/
def pollOnce (env : MailEnv) (email : String) (oldId : Option String)
    (t : Nat) : Option String :=
  match env.feed t with
  | FeedResp.fail => adminPoll env email t
  | FeedResp.ok [] => adminPoll env email t
  | FeedResp.ok (latest :: _) =>
      if pyTruthyStr oldId && latest.id == oldId then none
      else
        match extract_code_from_html (msgContent latest) with
        | some c => some c
        | none => adminPoll env email t

/-- The while loop, one iteration per ~2s sleep until the deadline. -/
def getCodeLoop (env : MailEnv) (email : String) (oldId : Option String) :
    Nat → Nat → Option String
  | 0, _ => none
  | fuel + 1, t =>
      match pollOnce env email oldId t with
      | some c => some c
      | none => getCodeLoop env email oldId fuel (t + 1)

/-- The baseline capture performed when the caller supplies no id: the id of
the newest message, when the fetch succeeds and the feed is non-empty. -/
def initialBaseline (env : MailEnv) : Option String :=
  match env.baseline with
  | FeedResp.fail => none
  | FeedResp.ok [] => none
  | FeedResp.ok (m :: _) => m.id

/-- get_verification_code: capture the baseline unless supplied, then poll
until a code is found or the deadline elapses. -/
def get_verification_code (env : MailEnv) (email : String)
    (oldId0 : Option String) (fuel : Nat) : Option String :=
  let oldId := match oldId0 with
    | some v => some v
    | none => initialBaseline env
  getCodeLoop env email oldId fuel 0

theorem getCodeLoop_skips_baseline (env : MailEnv) (email : String)
    (h : ∀ t, ∃ m ms, env.feed t = FeedResp.ok (m :: ms) ∧ m.id = some "m1") :
    ∀ fuel t0, getCodeLoop env email (some "m1") fuel t0 = none := by
  intro fuel
  induction fuel with
  | zero => intro t0; rfl
  | succ n ih =>
      intro t0
      obtain ⟨m, ms, hf, hid⟩ := h t0
      rw [getCodeLoop]
      have hp : pollOnce env email (some "m1") t0 = none := by
        rw [pollOnce, hf]
        have hcond : (pyTruthyStr (some "m1")
            && (m.id == (some "m1" : Option String))) = true := by
          rw [hid]; decide
        simp only [hcond, if_true]
      rw [hp]
      exact ih (t0 + 1)

/-- C6: with a supplied baseline id m1, while every feed poll keeps showing
a newest message with id m1, await_code returns nothing for any deadline:
the continue statement fires on every iteration, so neither the baseline
message body nor the admin-mail fallback is ever consulted, whatever codes
they hold. -/
theorem await_code_skips_baseline (env : MailEnv) (email : String) (fuel : Nat)
    (h : ∀ t, ∃ m ms, env.feed t = FeedResp.ok (m :: ms) ∧ m.id = some "m1") :
    get_verification_code env email (some "m1") fuel = none :=
  getCodeLoop_skips_baseline env email h fuel 0

/-- The stale baseline message: id m1 with an extractable code in its body. -/
def baselineMsg : EmailMsg :=
  { id := some "m1",
    html_content := some [Html.elem "strong" none [Html.tx "XYZ123"]],
    html := none, body := none, content := none, text := none }

/-- Environment whose feed always answers with the baseline message and
whose admin feed even carries a matching mail with a pre-extracted code. -/
def staleInboxEnv : MailEnv :=
  { google_mail := "verify@google.com",
    baseline := FeedResp.ok [baselineMsg],
    feed := fun _ => FeedResp.ok [baselineMsg],
    admin := fun _ => AdminResp.ok
      [{ address := "alice@x.io", source := "verify@google.com",
         aiResult := some "XYZ123" }] }

/-- C6 witness: the theorem at the concrete stale environment; even though
both the baseline body and the admin metadata hold the code XYZ123,
await_code keeps polling and times out. -/
theorem await_code_skips_baseline_witness :
    get_verification_code staleInboxEnv "alice@x.io" (some "m1") 5 = none :=
  await_code_skips_baseline staleInboxEnv "alice@x.io" 5
    (fun _ => ⟨baselineMsg, [], rfl, rfl⟩)

/-! Verification Code Filler: GeminiAuthHelper.fill_verification_code
(gemini_auth_utils.py lines 423-560). Element interactions are modelled by
an environment of outcome flags; an operation inside a bare statement of a
stage whose exception escapes to that stage except-handler is a raises
flag, and wait.until failures count as raises of their stage. Interactions
wrapped in their own inner try/except pass cannot change the control flow
and are not modelled. -/

/-- Environment of fill_verification_code. typeRaises a: typing into the
pin slots raises during loop attempt a of stage 1; s1poll j: outcome of
the j-th _poll_typed call of stage 1 (two polls per attempt: after the
per-slot typing, and after the focus-first-slot fallback). -/
structure FillEnv where
  pinCount : Nat
  findPinsRaises : Bool
  typeRaises : Nat → Bool
  s1poll : Nat → Bool
  singleFound : Bool
  singleSendRaises : Bool
  singleReadbackOk : Bool
  singleReadRaises : Bool
  singleJsOk : Bool
  otpFound : Bool
  otpSendRaises : Bool
  activeSendOk : Bool

/-- The three-attempt loop of the six-box stage: each attempt types the six
characters (an escaped exception falls out of the stage), polls, retries
the whole-string fallback, polls again; exhausting the attempts returns
True optimistically. Returns some b when the stage returns b, none when it
falls through to the next stage by exception. -/
def stage1Attempts (env : FillEnv) : Nat → Nat → Option Bool
  | 0, _ => some true
  | a + 1, k =>
      if env.typeRaises k then none
      else if env.s1poll (2 * k) then some true
      else if env.s1poll (2 * k + 1) then some true
      else stage1Attempts env a (k + 1)

/-- Stage 1, the six discrete pin inputs: only entered when find_elements
does not raise and at least six pins match; fewer pins fall through with
no exception, like an escaped exception does. -/
def stage1 (env : FillEnv) : Option Bool :=
  if env.findPinsRaises then none
  else if 6 ≤ env.pinCount then stage1Attempts env 3 0
  else none

/-- Stage 2, the single combined input: wait.until failure or an escaped
send_keys or readback exception falls through; confirmed readback, a
confirmed scripted assignment, and the unconfirmed case all return True. -/
def stage2 (env : FillEnv) : Option Bool :=
  if env.singleFound then
    if env.singleSendRaises then none
    else if env.singleReadbackOk then some true
    else if env.singleReadRaises then none
    else if env.singleJsOk then some true
    else some true
  else none

/-- Stage 3, the custom OTP container: when the first segment is clickable
and sending to the focused element does not raise, the stage returns True
whether or not the re-queried pins ever read back the code. -/
def stage3 (env : FillEnv) : Option Bool :=
  if env.otpFound then
    if env.otpSendRaises then none else some true
  else none

/-- fill_verification_code: strip the code, fail on a wrong length, then
try the three widget stages, and as a last resort send the code to the
focused element, failing only when even that raises. -/
def fill_verification_code (env : FillEnv) (code0 : String) : Bool :=
  let code := pyStrip code0
  if code.length ≠ 6 then false
  else
    match stage1 env with
    | some b => b
    | none =>
      match stage2 env with
      | some b => b
      | none =>
        match stage3 env with
        | some b => b
        | none => env.activeSendOk

theorem stage1Attempts_not_false (env : FillEnv) :
    ∀ a k, stage1Attempts env a k = none ∨ stage1Attempts env a k = some true := by
  intro a
  induction a with
  | zero => intro k; exact Or.inr rfl
  | succ a ih =>
      intro k
      rw [stage1Attempts]
      split
      · exact Or.inl rfl
      · split
        · exact Or.inr rfl
        · split
          · exact Or.inr rfl
          · exact ih (k + 1)

theorem stage1_not_false (env : FillEnv) :
    stage1 env = none ∨ stage1 env = some true := by
  rw [stage1]
  split
  · exact Or.inl rfl
  · split
    · exact stage1Attempts_not_false env 3 0
    · exact Or.inl rfl

theorem stage2_not_false (env : FillEnv) :
    stage2 env = none ∨ stage2 env = some true := by
  rw [stage2]
  split
  · split
    · exact Or.inl rfl
    · split
      · exact Or.inr rfl
      · split
        · exact Or.inl rfl
        · split
          · exact Or.inr rfl
          · exact Or.inr rfl
  · exact Or.inl rfl

theorem stage3_not_false (env : FillEnv) :
    stage3 env = none ∨ stage3 env = some true := by
  rw [stage3]
  split
  · split
    · exact Or.inl rfl
    · exact Or.inr rfl
  · exact Or.inl rfl

/-- C4 amended: none of the three widget-shape stages ever reports failure,
and fill returns failure exactly when the stripped code is not 6
characters long, or when every stage fell through by exception (no shape
reachable) and the final send-to-focused-element fallback raised too. -/
theorem fill_code_failure_characterization (env : FillEnv) (code : String) :
    (stage1 env = none ∨ stage1 env = some true)
    ∧ (stage2 env = none ∨ stage2 env = some true)
    ∧ (stage3 env = none ∨ stage3 env = some true)
    ∧ (fill_verification_code env code = false ↔
        ((pyStrip code).length ≠ 6
          ∨ (stage1 env = none ∧ stage2 env = none ∧ stage3 env = none
              ∧ env.activeSendOk = false))) := by
  refine ⟨stage1_not_false env, stage2_not_false env, stage3_not_false env, ?_⟩
  by_cases hl : (pyStrip code).length = 6
  · rcases stage1_not_false env with h1 | h1
    · rcases stage2_not_false env with h2 | h2
      · rcases stage3_not_false env with h3 | h3
        · cases ha : env.activeSendOk
          · simp [fill_verification_code, hl, h1, h2, h3, ha]
          · simp [fill_verification_code, hl, h1, h2, h3, ha]
        · simp [fill_verification_code, hl, h1, h2, h3]
      · simp [fill_verification_code, hl, h1, h2]
    · simp [fill_verification_code, hl, h1]
  · simp [fill_verification_code, hl]

/-- Page where no widget shape is reachable and even the focused-element
send raises. -/
def nothingFoundEnv : FillEnv :=
  { pinCount := 0, findPinsRaises := false, typeRaises := fun _ => false,
    s1poll := fun _ => false, singleFound := false, singleSendRaises := false,
    singleReadbackOk := false, singleReadRaises := false, singleJsOk := false,
    otpFound := false, otpSendRaises := false, activeSendOk := false }

/-- C4 counterexample: for the 6-character code AB12C9, when none of the
three widget shapes is reachable and the final focused-element send also
raises, fill returns failure although the up-front length check passed. -/
theorem fill_code_false_despite_length_ok_cex :
    fill_verification_code nothingFoundEnv "AB12C9" = false
    ∧ (pyStrip "AB12C9").length = 6 :=
  ⟨rfl, rfl⟩

/-- Page with six pin boxes whose values never read back, and nothing
raising. -/
def unreadablePinsEnv : FillEnv :=
  { pinCount := 6, findPinsRaises := false, typeRaises := fun _ => false,
    s1poll := fun _ => false, singleFound := false, singleSendRaises := false,
    singleReadbackOk := false, singleReadRaises := false, singleJsOk := false,
    otpFound := false, otpSendRaises := false, activeSendOk := false }

/-- C4 witness: the characterization at a concrete page whose six pin boxes
never confirm by readback, where fill indeed reports success
optimistically. -/
theorem fill_code_failure_characterization_witness :
    (stage1 unreadablePinsEnv = none ∨ stage1 unreadablePinsEnv = some true)
    ∧ (stage2 unreadablePinsEnv = none ∨ stage2 unreadablePinsEnv = some true)
    ∧ (stage3 unreadablePinsEnv = none ∨ stage3 unreadablePinsEnv = some true)
    ∧ (fill_verification_code unreadablePinsEnv "AB12C9" = false ↔
        ((pyStrip "AB12C9").length ≠ 6
          ∨ (stage1 unreadablePinsEnv = none ∧ stage2 unreadablePinsEnv = none
              ∧ stage3 unreadablePinsEnv = none
              ∧ unreadablePinsEnv.activeSendOk = false)))
    ∧ fill_verification_code unreadablePinsEnv "AB12C9" = true := by
  refine ⟨?_, ?_, ?_, ?_, rfl⟩
  · exact (fill_code_failure_characterization unreadablePinsEnv "AB12C9").1
  · exact (fill_code_failure_characterization unreadablePinsEnv "AB12C9").2.1
  · exact (fill_code_failure_characterization unreadablePinsEnv "AB12C9").2.2.1
  · exact (fill_code_failure_characterization unreadablePinsEnv "AB12C9").2.2.2

/-! Credential extraction: GeminiAuthHelper.extract_config_from_driver
(gemini_auth_utils.py lines 717-774). The driver is modelled by per-poll
snapshots of current_url and get_cookies; datetime.fromtimestamp(..)
.strftime("%Y-%m-%d %H:%M:%S") is modelled as the UTC rendering of the
Unix timestamp; URL percent-decoding is not modelled (values are taken
unescaped). -/

/-- Decimal rendering of an integer. -/
def intRepr : Int → String
  | Int.ofNat n => Nat.repr n
  | Int.negSucc n => "-" ++ Nat.repr (n + 1)

/-- Two-digit zero padding of strftime. -/
def pad2 (n : Nat) : String :=
  if n < 10 then "0" ++ Nat.repr n else Nat.repr n

/-- Civil date (UTC) from days since the Unix epoch, by the standard
era/day-of-era conversion. -/
def civilFromDays (z0 : Int) : Int × Nat × Nat :=
  let z := z0 + 719468
  let era : Int := Int.fdiv z 146097
  let doe : Nat := (z - era * 146097).toNat
  let yoe : Nat := (doe - doe / 1460 + doe / 36524 - doe / 146096) / 365
  let doy : Nat := doe - (365 * yoe + yoe / 4 - yoe / 100)
  let mp : Nat := (5 * doy + 2) / 153
  let d : Nat := doy - (153 * mp + 2) / 5 + 1
  let m : Nat := if mp < 10 then mp + 3 else mp - 9
  (era * 400 + (yoe : Int) + (if m ≤ 2 then 1 else 0), m, d)

/-- The calendar-timestamp format "%Y-%m-%d %H:%M:%S" of a Unix time. -/
def fmtTimestamp (t : Int) : String :=
  let days := Int.fdiv t 86400
  let sod : Nat := (t - days * 86400).toNat
  let ymd := civilFromDays days
  intRepr ymd.1 ++ "-" ++ pad2 ymd.2.1 ++ "-" ++ pad2 ymd.2.2 ++ " "
    ++ pad2 (sod / 3600) ++ ":" ++ pad2 (sod % 3600 / 60) ++ ":" ++ pad2 (sod % 60)

/-- Split a character list at every occurrence of the separator
(Python str.split with a one-character separator). -/
def splitOnChar (sep : Char) : List Char → List (List Char)
  | [] => [[]]
  | c :: cs =>
      let r := splitOnChar sep cs
      if c = sep then [] :: r
      else
        match r with
        | [] => [[c]]
        | h :: t => (c :: h) :: t

/-- Rejoin split pieces with the separator. -/
def joinWithChar (sep : Char) : List (List Char) → List Char
  | [] => []
  | [x] => x
  | x :: xs => x ++ sep :: joinWithChar sep xs

/-- urlparse(url).query: the part after the first question mark of the
pre-fragment portion. -/
def urlQuery (url : List Char) : List Char :=
  let preFrag := (splitOnChar '#' url).headD []
  match splitOnChar '?' preFrag with
  | [] => []
  | [_] => []
  | _ :: rest => joinWithChar '?' rest

/-- parse_qs(query).get(key, [None])[0]: the first value of the key, pairs
with a blank value or without an equals sign being dropped. -/
def parseQsFirst (query : List Char) (key : String) : Option String :=
  (splitOnChar '&' query).findSome? fun kv =>
    match splitOnChar '=' kv with
    | [] => none
    | [_] => none
    | name :: rest =>
        let v := joinWithChar '=' rest
        if name == key.data && !v.isEmpty then some (String.mk v) else none

/-- The /cid/ path segment scan: the first part equal to cid that has a
successor yields that successor up to its first question mark. -/
def findCid : List (List Char) → Option String
  | [] => none
  | p :: next :: rest =>
      if p = "cid".data then some (String.mk ((splitOnChar '?' next).headD []))
      else findCid (next :: rest)
  | [_] => none

/-- One Selenium cookie as read by the source: name, value, optional
integer expiry. -/
structure Cookie where
  name : String
  value : Option String
  expiry : Option Int
deriving DecidableEq, Repr

/-- One poll observation of the driver. -/
structure Snapshot where
  url : String
  cookies : List Cookie
deriving DecidableEq, Repr

/-- The dict comprehension keyed by cookie name: the last cookie of a name
wins. -/
def cookieLookup (cs : List Cookie) (n : String) : Option Cookie :=
  cs.reverse.find? (fun c => c.name == n)

/-- The session-cookie expiry reported by a snapshot. -/
def sesExpiry (s : Snapshot) : Option Int :=
  (cookieLookup s.cookies "__Secure-C_SES").bind Cookie.expiry

/-- One poll iteration of extract_config_from_driver: succeed only when the
two cookie values, the csesidx query parameter and the cid path segment
are all truthy; expires_at is formatted from expiry - 43200 only when the
reported expiry is truthy, an absent or zero expiry leaving it null. -/
def extractAttempt (email : String) (s : Snapshot) : Option ConfigData :=
  let csesidx := parseQsFirst (urlQuery s.url.data) "csesidx"
  let config_id := findCid (splitOnChar '/' s.url.data)
  let ses := cookieLookup s.cookies "__Secure-C_SES"
  let host := cookieLookup s.cookies "__Host-C_OSES"
  let sesVal := ses.bind Cookie.value
  let hostVal := host.bind Cookie.value
  if pyTruthyStr sesVal && pyTruthyStr hostVal && pyTruthyStr csesidx
      && pyTruthyStr config_id then
    some { id := email,
           csesidx := csesidx.getD "",
           config_id := config_id.getD "",
           secure_c_ses := sesVal.getD "",
           host_c_oses := hostVal.getD "",
           expires_at :=
             match ses.bind Cookie.expiry with
             | some e => if e ≠ 0 then some (fmtTimestamp (e - 43200)) else none
             | none => none }
  else none

/-- The 0.5s polling loop of extract_config_from_driver, one snapshot per
iteration; exhaustion returns None (after logging the missing fields). -/
def extractLoop (email : String) (trace : Nat → Snapshot) :
    Nat → Nat → Option ConfigData
  | 0, _ => none
  | n + 1, t =>
      match extractAttempt email (trace t) with
      | some c => some c
      | none => extractLoop email trace n (t + 1)

/-- extract_config_from_driver over a trace of driver snapshots. -/
def extract_config_from_driver (email : String) (trace : Nat → Snapshot)
    (fuel : Nat) : Option ConfigData :=
  extractLoop email trace fuel 0

/-- C8 amended: on every successful extraction, a truthy (nonzero) reported
session-cookie expiry T yields expires_at = format(T - 43200), an exact
fixed 12-hour skew; an absent expiry yields a null expires_at, but so does
a reported expiry of exactly 0, which the truthiness test treats as
absent. -/
theorem expires_at_fixed_skew (email : String) (s : Snapshot) (c : ConfigData)
    (T : Int) (h : extractAttempt email s = some c) :
    (sesExpiry s = some T → T ≠ 0 → c.expires_at = some (fmtTimestamp (T - 43200)))
    ∧ (sesExpiry s = none → c.expires_at = none)
    ∧ (sesExpiry s = some 0 → c.expires_at = none) := by
  unfold extractAttempt at h
  dsimp only at h
  split at h
  · cases h
    have hsc : (cookieLookup s.cookies "__Secure-C_SES").bind Cookie.expiry
        = sesExpiry s := rfl
    refine ⟨?_, ?_, ?_⟩
    · intro hT hT0
      dsimp only
      rw [hsc, hT]
      simp [hT0]
    · intro hT
      dsimp only
      rw [hsc, hT]
    · intro hT
      dsimp only
      rw [hsc, hT]
      simp
  · cases h

/-- Snapshot with all four fields present and a session expiry of 172800. -/
def snapWithExpiry : Snapshot :=
  { url := "https://business.gemini.google/u/0/cid/cfg42?csesidx=idx7",
    cookies :=
      [ { name := "__Secure-C_SES", value := some "sesv", expiry := some 172800 },
        { name := "__Host-C_OSES", value := some "hostv", expiry := none } ] }

/-- Same snapshot with a reported session expiry of exactly 0. -/
def snapZeroExpiry : Snapshot :=
  { url := "https://business.gemini.google/u/0/cid/cfg42?csesidx=idx7",
    cookies :=
      [ { name := "__Secure-C_SES", value := some "sesv", expiry := some 0 },
        { name := "__Host-C_OSES", value := some "hostv", expiry := none } ] }

/-- C8 witness: the skew theorem at a concrete snapshot; the extraction
succeeds and records format(172800 - 43200), namely 1970-01-02 12:00:00. -/
theorem expires_at_fixed_skew_witness :
    extractAttempt "a@b.io" snapWithExpiry = some
      { id := "a@b.io", csesidx := "idx7", config_id := "cfg42",
        secure_c_ses := "sesv", host_c_oses := "hostv",
        expires_at := some (fmtTimestamp (172800 - 43200)) }
    ∧ sesExpiry snapWithExpiry = some 172800
    ∧ fmtTimestamp (172800 - 43200) = "1970-01-02 12:00:00"
    ∧ ({ id := "a@b.io", csesidx := "idx7", config_id := "cfg42",
         secure_c_ses := "sesv", host_c_oses := "hostv",
         expires_at := some (fmtTimestamp (172800 - 43200)) : ConfigData }).expires_at
        = some (fmtTimestamp ((172800 : Int) - 43200)) := by
  refine ⟨by decide, rfl, by decide, ?_⟩
  exact (expires_at_fixed_skew "a@b.io" snapWithExpiry
    { id := "a@b.io", csesidx := "idx7", config_id := "cfg42",
      secure_c_ses := "sesv", host_c_oses := "hostv",
      expires_at := some (fmtTimestamp (172800 - 43200)) }
    172800 (by decide)).1 rfl (by decide)

/-- C8 counterexample: a successful extraction whose session cookie reports
the integer expiry 0 records a null expires_at, not the formatting of
0 - 43200, because the source tests the expiry for truthiness rather than
presence. -/
theorem expires_at_zero_truthiness_cex :
    extractAttempt "a@b.io" snapZeroExpiry = some
      { id := "a@b.io", csesidx := "idx7", config_id := "cfg42",
        secure_c_ses := "sesv", host_c_oses := "hostv", expires_at := none }
    ∧ sesExpiry snapZeroExpiry = some 0
    ∧ some (fmtTimestamp (0 - 43200)) ≠ (none : Option String) := by
  refine ⟨by decide, rfl, by simp⟩

end GB
